import Mathlib

/-!
Shallow embedding of the parking-alpr service core
(`app/main.py`, `app/auth.py`, `app/alpr_service.py`, `app/models.py`,
`app/schemas.py`).

Database tables are modelled as insertion-ordered lists; SQLAlchemy
`query(...).filter(...).first()` becomes `List.find?`, `.all()` with
`offset`/`limit` becomes `filter`/`drop`/`take`, and `order_by(col.desc())`
becomes a merge sort on the key.  `HTTPException` is an error value and
fallible endpoints return `Except`.  Strings are manipulated through their
character lists; character classes are expressed on the ASCII codepoint
(`Char.toNat`).
-/

namespace ParkingALPR

/-- Python `str.upper` on one character (ASCII case mapping: codepoints
97..122 are mapped down by 32, everything else is unchanged). -/
def pyUpperChar (c : Char) : Char :=
  if 97 ≤ c.toNat ∧ c.toNat ≤ 122 then Char.ofNat (c.toNat - 32) else c

/-- Python `s.upper()`. -/
def pyUpperStr (s : String) : String :=
  String.mk (s.toList.map pyUpperChar)

/-- Python `s.upper().replace(" ", "")`, the plate canonicalization used by
`verify_plate`, `verify_plate_upload` and `create_vehicle` in `app/main.py`. -/
def upperDespace (s : String) : String :=
  String.mk ((s.toList.map pyUpperChar).filter (fun c => !(c == ' ')))

/-- The regex class `[\s]` (ASCII view): space and the control characters
9..13 (tab, newline, vertical tab, form feed, carriage return). -/
def pyIsRegexSpace (c : Char) : Bool :=
  c.toNat == 32 || (9 ≤ c.toNat && c.toNat ≤ 13)

/-- The regex class `[A-Z0-9]`: codepoints 65..90 and 48..57. -/
def isUpperAlnum (c : Char) : Bool :=
  (65 ≤ c.toNat && c.toNat ≤ 90) || (48 ≤ c.toNat && c.toNat ≤ 57)

/-- `ALPRService._normalize_plate` (`app/alpr_service.py` lines 47-55):
empty input maps to the empty string; otherwise uppercase, drop the regex
class `[\s\-\.]`, then keep only `[A-Z0-9]`. -/
def normalize_plate (text : String) : String :=
  if text == "" then ""
  else
    let upper := text.toList.map pyUpperChar
    let step1 := upper.filter (fun c => !(pyIsRegexSpace c || c == '-' || c == '.'))
    String.mk (step1.filter isUpperAlnum)

/-- `_normalize_plate` applied to a possibly-null argument: Python
`if not text: return ""` also catches `None`. -/
def normalize_plate_opt : Option String → String
  | none => ""
  | some s => normalize_plate s

/-- Python truthiness of an optional string: `None` and `""` are falsy. -/
def pyTruthyStrOpt : Option String → Bool
  | none => false
  | some s => !(s == "")

/-- Python `f"...{x}..."` rendering of an optional string (`None` prints as
`"None"`). -/
def pyStrOpt : Option String → String
  | none => "None"
  | some s => s

/-- `app/models.py` `Building`. -/
structure Building where
  id : Nat
  name : String
  address : Option String
  api_token : String
  is_active : Bool
deriving DecidableEq

/-- `app/models.py` `Vehicle`. -/
structure Vehicle where
  id : Nat
  building_id : Nat
  license_plate : String
  owner_name : String
  apartment : Option String
  phone : Option String
  vehicle_type : Option String
  vehicle_brand : Option String
  vehicle_color : Option String
  is_active : Bool
deriving DecidableEq

/-- `app/models.py` `AccessLog`; `accessed_at` is an abstract timestamp. -/
structure AccessLog where
  id : Nat
  building_id : Nat
  license_plate : String
  is_authorized : Bool
  confidence : Option Int
  accessed_at : Nat
deriving DecidableEq

/-- The persistent store: one insertion-ordered list per table. -/
structure Db where
  buildings : List Building
  vehicles : List Vehicle
  access_logs : List AccessLog
deriving DecidableEq

/-- `fastapi.HTTPException` as a value. -/
structure HTTPException where
  status_code : Nat
  detail : String
deriving DecidableEq

/-- `app/alpr_service.py` `PlateResult`. -/
structure PlateResult where
  text : Option String
  confidence : Option Int
  success : Bool
  error : Option String
deriving DecidableEq

/-- `app/schemas.py` `PlateVerifyResponse`; `owner_name` and `apartment`
default to `None` exactly as in the pydantic model. -/
structure PlateVerifyResponse where
  license_plate : Option String
  is_authorized : Bool
  confidence : Option Int
  owner_name : Option String := none
  apartment : Option String := none
  message : String
deriving DecidableEq

/-- `app/schemas.py` `VehicleCreate`. -/
structure VehicleCreate where
  license_plate : String
  owner_name : String
  apartment : Option String
  phone : Option String
  vehicle_type : Option String
  vehicle_brand : Option String
  vehicle_color : Option String
deriving DecidableEq

/-- `app/auth.py` `get_current_building` (lines 11-38): absent (or empty,
Python-falsy) key is a 401 missing-key error; otherwise the building table
is searched for a row with this token and `is_active == True`, and a miss
is a 401 invalid-or-inactive error. -/
def get_current_building (api_key : Option String) (db : Db) :
    Except HTTPException Building :=
  if pyTruthyStrOpt api_key = false then
    .error ⟨401, "Missing API key. Include X-API-Key header."⟩
  else
    match db.buildings.find?
        (fun b => b.api_token == api_key.getD "" && b.is_active == true) with
    | none => .error ⟨401, "Invalid or inactive API key."⟩
    | some b => .ok b

/-- FastAPI `Depends(get_current_building)`: every tenant-scoped endpoint
first resolves the building and propagates the resolution error. -/
def withBuilding (api_key : Option String) (db : Db)
    (f : Building → Except HTTPException α) : Except HTTPException α :=
  match get_current_building api_key db with
  | .error e => .error e
  | .ok b => f b

/-- `app/main.py` `verify_plate` (lines 143-208).  The recognition
collaborator is the `recognize : base64 → PlateResult` parameter
(`alpr_service.recognize_from_base64`); `logId` and `now` stand for the
autoincrement id and `server_default=func.now()` of the inserted row.
Returns the response together with the store after any audit write. -/
def verify_plate (recognize : String → PlateResult) (image_base64 : String)
    (building : Building) (db : Db) (logId now : Nat) :
    PlateVerifyResponse × Db :=
  let result := recognize image_base64
  if result.success = false then
    ({ license_plate := none, is_authorized := false, confidence := none,
       message := "Failed to read license plate: " ++ pyStrOpt result.error },
     db)
  else if pyTruthyStrOpt result.text = false then
    ({ license_plate := none, is_authorized := false,
       confidence := result.confidence,
       message := "No license plate detected in the image" }, db)
  else
    let plate := upperDespace (result.text.getD "")
    let vehicle := db.vehicles.find? (fun v =>
      v.building_id == building.id && v.license_plate == plate &&
      v.is_active == true)
    let is_authorized := vehicle.isSome
    let access_log : AccessLog :=
      { id := logId, building_id := building.id, license_plate := plate,
        is_authorized := is_authorized, confidence := result.confidence,
        accessed_at := now }
    let db' := { db with access_logs := db.access_logs ++ [access_log] }
    let message := match vehicle with
      | some v =>
          "Vehicle authorized - Owner: " ++ v.owner_name ++ ", Apt: " ++
            pyStrOpt v.apartment
      | none => "Vehicle not authorized for this building"
    ({ license_plate := some plate, is_authorized := is_authorized,
       confidence := result.confidence, message := message }, db')

/-- `app/main.py` `verify_plate_upload` (lines 66-140).  The uploaded bytes
are base64-encoded (`encode` models `base64.b64encode(contents).decode()`)
and fed to the same recognizer; the rest of the body is transcribed from the
upload endpoint, which duplicates the JSON endpoint line for line. -/
def verify_plate_upload (encode : List Nat → String)
    (recognize : String → PlateResult) (contents : List Nat)
    (building : Building) (db : Db) (logId now : Nat) :
    PlateVerifyResponse × Db :=
  let image_base64 := encode contents
  let result := recognize image_base64
  if result.success = false then
    ({ license_plate := none, is_authorized := false, confidence := none,
       message := "Failed to read license plate: " ++ pyStrOpt result.error },
     db)
  else if pyTruthyStrOpt result.text = false then
    ({ license_plate := none, is_authorized := false,
       confidence := result.confidence,
       message := "No license plate detected in the image" }, db)
  else
    let plate := upperDespace (result.text.getD "")
    let vehicle := db.vehicles.find? (fun v =>
      v.building_id == building.id && v.license_plate == plate &&
      v.is_active == true)
    let is_authorized := vehicle.isSome
    let access_log : AccessLog :=
      { id := logId, building_id := building.id, license_plate := plate,
        is_authorized := is_authorized, confidence := result.confidence,
        accessed_at := now }
    let db' := { db with access_logs := db.access_logs ++ [access_log] }
    let message := match vehicle with
      | some v =>
          "Vehicle authorized - Owner: " ++ v.owner_name ++ ", Apt: " ++
            pyStrOpt v.apartment
      | none => "Vehicle not authorized for this building"
    ({ license_plate := some plate, is_authorized := is_authorized,
       confidence := result.confidence, message := message }, db')

/-- `app/main.py` `list_vehicles` (lines 216-228): building-scoped filter,
optional `is_active` filter, then `offset(skip).limit(limit)`. -/
def list_vehicles (building : Building) (skip limit : Nat)
    (active_only : Bool) (db : Db) : List Vehicle :=
  let q := db.vehicles.filter (fun v => v.building_id == building.id)
  let q := if active_only then q.filter (fun v => v.is_active == true) else q
  (q.drop skip).take limit

/-- `app/main.py` `get_vehicle` (lines 236-252): first row of this building
whose plate equals the uppercased path parameter, else 404. -/
def get_vehicle (license_plate : String) (building : Building) (db : Db) :
    Except HTTPException Vehicle :=
  match db.vehicles.find? (fun v =>
      v.building_id == building.id &&
      v.license_plate == pyUpperStr license_plate) with
  | none => .error ⟨404, "Vehicle not found"⟩
  | some v => .ok v

/-- `app/main.py` `create_vehicle` (lines 261-297): the input plate is
uppercased and space-stripped, the building is scanned for any row (active
or not) with that plate, a hit is a 400 conflict, otherwise the row is
inserted with `is_active` defaulted to true. -/
def create_vehicle (vehicle_data : VehicleCreate) (building : Building)
    (db : Db) (newId : Nat) : Except HTTPException (Vehicle × Db) :=
  let license_plate := upperDespace vehicle_data.license_plate
  match db.vehicles.find? (fun v =>
      v.building_id == building.id && v.license_plate == license_plate) with
  | some _ => .error ⟨400,
      "Vehicle with this license plate already registered in this building"⟩
  | none =>
    let vehicle : Vehicle :=
      { id := newId, building_id := building.id,
        license_plate := license_plate,
        owner_name := vehicle_data.owner_name,
        apartment := vehicle_data.apartment, phone := vehicle_data.phone,
        vehicle_type := vehicle_data.vehicle_type,
        vehicle_brand := vehicle_data.vehicle_brand,
        vehicle_color := vehicle_data.vehicle_color, is_active := true }
    .ok (vehicle, { db with vehicles := db.vehicles ++ [vehicle] })

/-- Mutation of the row found by `.first()`: flip `is_active` on the first
element satisfying `p`, leave the rest of the table untouched. -/
def setInactiveFirst (p : Vehicle → Bool) : List Vehicle → List Vehicle
  | [] => []
  | v :: rest =>
      if p v then { v with is_active := false } :: rest
      else v :: setInactiveFirst p rest

/-- `app/main.py` `delete_vehicle` (lines 332-352): 404 when no row of this
building matches the uppercased plate, otherwise soft-delete the found row. -/
def delete_vehicle (license_plate : String) (building : Building) (db : Db) :
    Except HTTPException Db :=
  let p := fun v : Vehicle =>
    v.building_id == building.id && v.license_plate == pyUpperStr license_plate
  match db.vehicles.find? p with
  | none => .error ⟨404, "Vehicle not found"⟩
  | some _ => .ok { db with vehicles := setInactiveFirst p db.vehicles }

/-- `ORDER BY accessed_at DESC` on the access-log table. -/
def sortByAccessedAtDesc (l : List AccessLog) : List AccessLog :=
  l.mergeSort (fun a b => b.accessed_at ≤ a.accessed_at)

/-- `app/main.py` `list_access_logs` (lines 360-372): building-scoped
filter, optional tri-state `authorized_only` filter, newest-first order,
then `offset(skip).limit(limit)`. -/
def list_access_logs (building : Building) (skip limit : Nat)
    (authorized_only : Option Bool) (db : Db) : List AccessLog :=
  let q := db.access_logs.filter (fun l => l.building_id == building.id)
  let q := match authorized_only with
    | none => q
    | some a => q.filter (fun l => l.is_authorized == a)
  ((sortByAccessedAtDesc q).drop skip).take limit

/-- The second filter of `_normalize_plate` written as a list pipeline. -/
def normChars (cs : List Char) : List Char :=
  ((cs.map pyUpperChar).filter
    (fun c => !(pyIsRegexSpace c || c == '-' || c == '.'))).filter isUpperAlnum

/-- The `(tenant, canonical plate)` key whose uniqueness §3 of the design
asserts for the vehicle table. -/
def plateKey (v : Vehicle) : Nat × String := (v.building_id, v.license_plate)

/-- The registry invariant: pairwise-distinct `(building_id, plate)` keys. -/
def uniquePlateKeys (l : List Vehicle) : Prop :=
  l.Pairwise (fun a c => plateKey a ≠ plateKey c)

/-! ### Concrete fixtures used by witnesses and counterexamples -/

/-- A first tenant. -/
def bldgA : Building := ⟨1, "Tower A", none, "tok-a", true⟩

/-- A second tenant, distinct from `bldgA`. -/
def bldgB : Building := ⟨2, "Tower B", none, "tok-b", true⟩

/-- A vehicle of tenant `bldgA` with the same plate string as `vehB`. -/
def vehA : Vehicle :=
  ⟨1, 1, "ABC123", "Alice", none, none, none, none, none, true⟩

/-- A vehicle of tenant `bldgB`. -/
def vehB : Vehicle :=
  ⟨2, 2, "ABC123", "John Doe", some "101A", none, none, none, none, true⟩

/-- A store holding both tenants and one vehicle each (identical plates). -/
def dbAB : Db := ⟨[bldgA, bldgB], [vehA, vehB], []⟩

/-- A recognizer that always fails with a decode error. -/
def recFail : String → PlateResult :=
  fun _ => ⟨none, none, false, some "Invalid image format"⟩

/-- A recognizer that always reads the raw text `"abc 123"` at 95%. -/
def recAbc : String → PlateResult :=
  fun _ => ⟨some "abc 123", some 95, true, none⟩

/-- Creation payload with a hyphenated plate. -/
def vcDash : VehicleCreate := ⟨"ab-12", "Test User", none, none, none, none, none⟩

/-- Creation payload whose plate collides with `vehB` after despacing. -/
def vcDup : VehicleCreate :=
  ⟨"abc 123", "Another Person", none, none, none, none, none⟩

/-- Store with both tenants but only tenant `bldgA`'s vehicle. -/
def dbOnlyA : Db := ⟨[bldgA, bldgB], [vehA], []⟩

/-- `dbAB` after tenant `bldgB` deactivates plate "ABC123". -/
def dbABdel : Db := { dbAB with vehicles := setInactiveFirst (fun v => v.building_id == bldgB.id && v.license_plate == pyUpperStr "abc123") dbAB.vehicles }

/-! ### Helper lemmas about normalization -/

theorem normalize_plate_eq_normChars (s : String) :
    normalize_plate s = String.mk (normChars s.toList) := by
  unfold normalize_plate normChars
  by_cases h : s = ""
  · subst h; rfl
  · rw [if_neg]
    simpa using h

theorem mem_normChars_upperAlnum {c : Char} {cs : List Char}
    (h : c ∈ normChars cs) : isUpperAlnum c = true :=
  List.of_mem_filter h

theorem upperAlnum_char_facts {c : Char} (h : isUpperAlnum c = true) :
    pyUpperChar c = c ∧ pyIsRegexSpace c = false ∧
      (c == '-') = false ∧ (c == '.') = false := by
  have hn : (65 ≤ c.toNat ∧ c.toNat ≤ 90) ∨ (48 ≤ c.toNat ∧ c.toNat ≤ 57) := by
    simpa [isUpperAlnum, Bool.or_eq_true, Bool.and_eq_true,
      decide_eq_true_iff] using h
  refine ⟨?_, ?_, ?_, ?_⟩
  · unfold pyUpperChar
    rw [if_neg]
    omega
  · rw [Bool.eq_false_iff]
    intro hs
    simp only [pyIsRegexSpace, Bool.or_eq_true, Bool.and_eq_true,
      beq_iff_eq, decide_eq_true_iff] at hs
    omega
  · rw [Bool.eq_false_iff]
    intro hb
    have : c = '-' := eq_of_beq hb
    subst this
    exact absurd hn (by decide)
  · rw [Bool.eq_false_iff]
    intro hb
    have : c = '.' := eq_of_beq hb
    subst this
    exact absurd hn (by decide)

theorem map_pyUpperChar_self {cs : List Char}
    (h : ∀ c ∈ cs, isUpperAlnum c = true) : cs.map pyUpperChar = cs := by
  induction cs with
  | nil => rfl
  | cons c rest ih =>
    simp only [List.map_cons, List.cons.injEq]
    exact ⟨(upperAlnum_char_facts (h c (by simp))).1,
      ih (fun x hx => h x (by simp [hx]))⟩

theorem normChars_fixed {cs : List Char}
    (h : ∀ c ∈ cs, isUpperAlnum c = true) : normChars cs = cs := by
  unfold normChars
  rw [map_pyUpperChar_self h]
  have hp1 : ∀ c ∈ cs, (!(pyIsRegexSpace c || c == '-' || c == '.')) = true := by
    intro c hc
    obtain ⟨-, h2, h3, h4⟩ := upperAlnum_char_facts (h c hc)
    simp [h2, h3, h4]
  rw [List.filter_eq_self.mpr hp1, List.filter_eq_self.mpr h]

/-! ### Claim theorems -/

/-- C4: `_normalize_plate` is pure, deterministic and total: null and empty
input map to the empty string without error, every output character is in
`[A-Z0-9]` (so the input has been uppercased and whitespace, hyphens,
periods and all other characters outside `[A-Z0-9]` removed), and the
function is idempotent. -/
theorem normalize_plate_total_idempotent :
    normalize_plate_opt none = "" ∧ normalize_plate "" = "" ∧
    (∀ s : String, normalize_plate_opt (some s) = normalize_plate s) ∧
    (∀ s : String, ((normalize_plate s).toList.all isUpperAlnum) = true) ∧
    (∀ s : String, normalize_plate (normalize_plate s) = normalize_plate s) := by
  refine ⟨rfl, rfl, fun s => rfl, ?_, ?_⟩
  · intro s
    rw [normalize_plate_eq_normChars]
    exact List.all_eq_true.mpr (fun c hc => mem_normChars_upperAlnum hc)
  · intro s
    rw [normalize_plate_eq_normChars s, normalize_plate_eq_normChars]
    have : (String.mk (normChars s.toList)).toList = normChars s.toList := rfl
    rw [this, normChars_fixed (fun c hc => mem_normChars_upperAlnum hc)]

/-- C1: tenant isolation of the vehicle registry.  For distinct tenants
`A ≠ B`, every vehicle returned by `list_vehicles` (any `active_only`,
`skip`, `limit`) or by `get_vehicle` under tenant `B` carries
`building_id = B.id`, hence never a record belonging to `A` — even when the
plate strings coincide. -/
theorem vehicle_tenant_isolation (A B : Building) (db : Db)
    (skip limit : Nat) (active_only : Bool) (h : A.id ≠ B.id) :
    (∀ v ∈ list_vehicles B skip limit active_only db,
       v.building_id = B.id ∧ v.building_id ≠ A.id) ∧
    (∀ (lp : String) (v : Vehicle), get_vehicle lp B db = .ok v →
       v.building_id = B.id ∧ v.building_id ≠ A.id) := by
  constructor
  · intro v hv
    have hq : v ∈ (if active_only then
        (db.vehicles.filter (fun v => v.building_id == B.id)).filter
          (fun v => v.is_active == true)
      else db.vehicles.filter (fun v => v.building_id == B.id)) :=
      List.mem_of_mem_drop (List.mem_of_mem_take hv)
    have hmem : v ∈ db.vehicles.filter (fun v => v.building_id == B.id) := by
      cases active_only with
      | true => exact (List.mem_filter.mp (by simpa using hq)).1
      | false => simpa using hq
    have hb : v.building_id = B.id := by
      have := (List.mem_filter.mp hmem).2
      simpa using this
    exact ⟨hb, by omega⟩
  · intro lp v hv
    unfold get_vehicle at hv
    cases hfind : db.vehicles.find? (fun v =>
        v.building_id == B.id && v.license_plate == pyUpperStr lp) with
    | none => rw [hfind] at hv; exact absurd hv (by simp)
    | some w =>
      rw [hfind] at hv
      have hw : w = v := by simpa using hv
      have hkey := List.find?_some hfind
      simp only [Bool.and_eq_true, beq_iff_eq] at hkey
      obtain ⟨hb, -⟩ := hkey
      rw [← hw]
      exact ⟨hb, by omega⟩

/-- C1 witness: in the two-tenant store `dbAB`, the vehicle returned to
tenant `bldgB` belongs to `bldgB` and not to `bldgA`. -/
theorem vehicle_tenant_isolation_witness :
    vehB.building_id = bldgB.id ∧ vehB.building_id ≠ bldgA.id :=
  (vehicle_tenant_isolation bldgA bldgB dbAB 0 100 true (by decide)).1
    vehB (by decide)

/-- C6: tenant resolution.  An absent (Python-falsy) key fails with the
401 missing-key error; a non-empty key that matches no building, or only
buildings with `is_active = false`, fails with the single 401
invalid-or-inactive error — the same error value in both cases, so tenant
existence does not leak — and every tenant-scoped operation run through
the dependency fails with that same error. -/
theorem tenant_resolution_contract (α : Type) (db : Db) (key : String)
    (hinactive : ∀ b ∈ db.buildings, b.api_token = key → b.is_active = false)
    (hne : key ≠ "") :
    get_current_building none db =
      .error ⟨401, "Missing API key. Include X-API-Key header."⟩ ∧
    get_current_building (some key) db =
      .error ⟨401, "Invalid or inactive API key."⟩ ∧
    ∀ f : Building → Except HTTPException α,
      withBuilding (some key) db f =
        .error ⟨401, "Invalid or inactive API key."⟩ := by
  have hres : get_current_building (some key) db =
      .error ⟨401, "Invalid or inactive API key."⟩ := by
    unfold get_current_building
    rw [if_neg]
    · have hnone : db.buildings.find?
          (fun b => b.api_token == (some key).getD "" &&
            b.is_active == true) = none := by
        rw [List.find?_eq_none]
        intro b hb
        simp only [Option.getD_some, Bool.and_eq_true, beq_iff_eq, not_and]
        intro htok
        rw [hinactive b hb htok]
        simp
      rw [hnone]
    · simp [pyTruthyStrOpt, hne]
  refine ⟨rfl, hres, fun f => ?_⟩
  unfold withBuilding
  rw [hres]

/-- C6 witness: in a store whose only building holding token `"tok-c"` is
deactivated, resolution and a concrete tenant-scoped listing both fail
with the invalid-or-inactive error. -/
theorem tenant_resolution_contract_witness :
    get_current_building none ⟨[⟨3, "Tower C", none, "tok-c", false⟩], [], []⟩ =
      .error ⟨401, "Missing API key. Include X-API-Key header."⟩ ∧
    get_current_building (some "tok-c")
        ⟨[⟨3, "Tower C", none, "tok-c", false⟩], [], []⟩ =
      .error ⟨401, "Invalid or inactive API key."⟩ ∧
    withBuilding (some "tok-c") ⟨[⟨3, "Tower C", none, "tok-c", false⟩], [], []⟩
        (fun b => .ok (list_vehicles b 0 100 true
          ⟨[⟨3, "Tower C", none, "tok-c", false⟩], [], []⟩)) =
      .error ⟨401, "Invalid or inactive API key."⟩ := by
  have h := tenant_resolution_contract (List Vehicle)
    ⟨[⟨3, "Tower C", none, "tok-c", false⟩], [], []⟩ "tok-c"
    (by intro b hb htok; simp at hb; rw [hb]) (by decide)
  exact ⟨h.1, h.2.1, h.2.2 _⟩

/-- C10: the JSON base64 endpoint and the multipart upload endpoint are
behaviorally equivalent: for the same tenant, store and recognizer, the
upload endpoint on bytes `contents` produces exactly the response and audit
writes of the JSON endpoint on the base64 encoding of `contents`. -/
theorem verify_endpoints_equivalent (encode : List Nat → String)
    (recognize : String → PlateResult) (contents : List Nat)
    (building : Building) (db : Db) (logId now : Nat) :
    verify_plate_upload encode recognize contents building db logId now =
      verify_plate recognize (encode contents) building db logId now := rfl

/-- C2 counterexample: when the recognizer reports an error, `verify_plate`
writes no audit entry at all — the store keeps its empty log table, so no
entry with the sentinel plate "UNREADABLE" (or any other plate) exists,
refuting the claimed exactly-one audit write. -/
theorem recognition_failure_cex :
    (verify_plate recFail "img" bldgB dbAB 0 0).2.access_logs = [] ∧
    (verify_plate recFail "img" bldgB dbAB 0 0).2.access_logs.length ≠ 1 ∧
    (verify_plate recFail "img" bldgB dbAB 0 0).1.is_authorized = false := by
  refine ⟨rfl, by decide, rfl⟩

/-- C2 amended: for every verify call in which the recognizer reports an
error, zero audit entries are written (the store is returned unchanged) and
the outcome has `authorized = false`, `plate = null`, `confidence = null`,
with the recognizer's error text surfaced in the message. -/
theorem recognition_failure_behavior (recognize : String → PlateResult)
    (img : String) (building : Building) (db : Db) (logId now : Nat)
    (h : (recognize img).success = false) :
    (verify_plate recognize img building db logId now).2 = db ∧
    (verify_plate recognize img building db logId now).1.is_authorized
      = false ∧
    (verify_plate recognize img building db logId now).1.license_plate
      = none ∧
    (verify_plate recognize img building db logId now).1.confidence = none ∧
    (verify_plate recognize img building db logId now).1.message =
      "Failed to read license plate: " ++ pyStrOpt (recognize img).error := by
  unfold verify_plate
  rw [if_pos h]
  exact ⟨rfl, rfl, rfl, rfl, rfl⟩

/-- C2 witness: the amended behavior at the concrete failing recognizer. -/
theorem recognition_failure_behavior_witness :
    (verify_plate recFail "img" bldgA dbAB 0 0).2 = dbAB ∧
    (verify_plate recFail "img" bldgA dbAB 0 0).1.is_authorized = false ∧
    (verify_plate recFail "img" bldgA dbAB 0 0).1.license_plate = none ∧
    (verify_plate recFail "img" bldgA dbAB 0 0).1.confidence = none ∧
    (verify_plate recFail "img" bldgA dbAB 0 0).1.message =
      "Failed to read license plate: " ++ pyStrOpt (recFail "img").error :=
  recognition_failure_behavior recFail "img" bldgA dbAB 0 0 rfl

/-- C3: audit-write count per verify branch.  When recognition succeeds
with truthy text (PLATE_FOUND) exactly one audit entry is appended for the
resolved tenant, whether or not the plate is authorized; when recognition
succeeds with no text (NO_PLATE_FOUND) the store is unchanged and the
outcome has `plate = null`, `authorized = false`. -/
theorem audit_write_count_per_branch (recognize : String → PlateResult)
    (img : String) (building : Building) (db : Db) (logId now : Nat) :
    ((recognize img).success = true →
      pyTruthyStrOpt (recognize img).text = true →
      ∃ log : AccessLog,
        (verify_plate recognize img building db logId now).2.access_logs =
          db.access_logs ++ [log] ∧ log.building_id = building.id) ∧
    ((recognize img).success = true →
      pyTruthyStrOpt (recognize img).text = false →
      (verify_plate recognize img building db logId now).2 = db ∧
      (verify_plate recognize img building db logId now).1.license_plate
        = none ∧
      (verify_plate recognize img building db logId now).1.is_authorized
        = false) := by
  constructor
  · intro hs ht
    unfold verify_plate
    rw [if_neg (by rw [hs]; simp), if_neg (by rw [ht]; simp)]
    exact ⟨_, rfl, rfl⟩
  · intro hs ht
    unfold verify_plate
    rw [if_neg (by rw [hs]; simp), if_pos (by rw [ht])]
    exact ⟨rfl, rfl, rfl⟩

/-- C3 witness: one successful recognition appends exactly one entry for
the tenant, and a successful empty recognition leaves the store unchanged. -/
theorem audit_write_count_per_branch_witness :
    (∃ log : AccessLog,
      (verify_plate recAbc "img" bldgB dbAB 9 100).2.access_logs =
        dbAB.access_logs ++ [log] ∧ log.building_id = bldgB.id) ∧
    ((verify_plate (fun _ => ⟨none, none, true, none⟩) "img" bldgB dbAB
        9 100).2 = dbAB ∧
      (verify_plate (fun _ => ⟨none, none, true, none⟩) "img" bldgB dbAB
        9 100).1.license_plate = none ∧
      (verify_plate (fun _ => ⟨none, none, true, none⟩) "img" bldgB dbAB
        9 100).1.is_authorized = false) :=
  ⟨(audit_write_count_per_branch recAbc "img" bldgB dbAB 9 100).1 rfl rfl,
   (audit_write_count_per_branch (fun _ => ⟨none, none, true, none⟩) "img"
     bldgB dbAB 9 100).2 rfl rfl⟩

/-- C7 (code bug): with tenant `bldgB` holding active vehicle "ABC123"
owned by "John Doe" and recognized text "abc 123", the outcome is
authorized with plate "ABC123", yet the structured `owner_name` and
`apartment` fields stay null — the endpoint never populates them (the
owner only appears inside the message string), contradicting the claim,
the schema documentation and the repository's own test
`test_verify_authorized_vehicle`. -/
theorem authorized_response_owner_fields_null :
    (verify_plate recAbc "img" bldgB dbAB 9 100).1.license_plate
      = some "ABC123" ∧
    (verify_plate recAbc "img" bldgB dbAB 9 100).1.is_authorized = true ∧
    (verify_plate recAbc "img" bldgB dbAB 9 100).1.owner_name = none ∧
    (verify_plate recAbc "img" bldgB dbAB 9 100).1.apartment = none ∧
    (verify_plate recAbc "img" bldgB dbAB 9 100).1.message =
      "Vehicle authorized - Owner: John Doe, Apt: 101A" := by
  refine ⟨by decide, by decide, by decide, by decide, by decide⟩

/-- C5 counterexample: `create_vehicle` does not canonicalize the plate —
on input "ab-12" it checks uniqueness against and stores "AB-12" (uppercase
and despaced only), while the canonical form per `_normalize_plate` is
"AB12". -/
theorem create_vehicle_not_canonical_cex :
    ((create_vehicle vcDash bldgA ⟨[bldgA], [], []⟩ 1).toOption.map
      (fun p => p.1.license_plate)) = some "AB-12" ∧
    normalize_plate vcDash.license_plate = "AB12" ∧
    upperDespace vcDash.license_plate ≠
      normalize_plate vcDash.license_plate := by
  refine ⟨by decide, by decide, by decide⟩

/-- C5 amended: the input plate is uppercased and space-stripped (hyphens
and periods are kept, so it is not the canonical form of the normalizer)
before the uniqueness check; creation fails with the 400 conflict and
returns no modified store whenever any record of the same tenant — active
or not — already has that processed plate, and succeeds (appending exactly
the new record) when no record of this tenant has it, in particular when
only other tenants hold the same plate. -/
theorem create_vehicle_contract (vd : VehicleCreate) (b : Building)
    (db : Db) (newId : Nat) :
    ((∃ v ∈ db.vehicles, v.building_id = b.id ∧
        v.license_plate = upperDespace vd.license_plate) →
      create_vehicle vd b db newId = .error ⟨400,
        "Vehicle with this license plate already registered in this building"⟩) ∧
    ((∀ v ∈ db.vehicles, v.building_id = b.id →
        v.license_plate ≠ upperDespace vd.license_plate) →
      ∃ v : Vehicle, create_vehicle vd b db newId =
          .ok (v, { db with vehicles := db.vehicles ++ [v] }) ∧
        v.license_plate = upperDespace vd.license_plate ∧
        v.building_id = b.id ∧ v.is_active = true) := by
  constructor
  · rintro ⟨v, hv, h1, h2⟩
    simp only [create_vehicle]
    cases hfind : db.vehicles.find? (fun w =>
        w.building_id == b.id &&
        w.license_plate == upperDespace vd.license_plate) with
    | none =>
      exfalso
      rw [List.find?_eq_none] at hfind
      exact hfind v hv (by simp [h1, h2])
    | some w => rfl
  · intro h
    have hfind : db.vehicles.find? (fun w =>
        w.building_id == b.id &&
        w.license_plate == upperDespace vd.license_plate) = none := by
      rw [List.find?_eq_none]
      intro v hv
      simp only [Bool.and_eq_true, beq_iff_eq, not_and]
      exact fun hb => h v hv hb
    exact ⟨⟨newId, b.id, upperDespace vd.license_plate, vd.owner_name,
        vd.apartment, vd.phone, vd.vehicle_type, vd.vehicle_brand,
        vd.vehicle_color, true⟩,
      by simp only [create_vehicle]; rw [hfind], rfl, rfl, rfl⟩

/-- C5 witness: creating "abc 123" for tenant `bldgB` conflicts with the
existing "ABC123" record of the same tenant, while the same payload
succeeds for `bldgB` when only tenant `bldgA` holds that plate. -/
theorem create_vehicle_contract_witness :
    create_vehicle vcDup bldgB dbAB 3 = .error ⟨400,
      "Vehicle with this license plate already registered in this building"⟩ ∧
    ∃ v : Vehicle, create_vehicle vcDup bldgB dbOnlyA 3 =
        .ok (v, { dbOnlyA with vehicles := dbOnlyA.vehicles ++ [v] }) ∧
      v.license_plate = upperDespace vcDup.license_plate ∧
      v.building_id = bldgB.id ∧ v.is_active = true :=
  ⟨(create_vehicle_contract vcDup bldgB dbAB 3).1
      ⟨vehB, by decide, by decide, by decide⟩,
   (create_vehicle_contract vcDup bldgB dbOnlyA 3).2 (by decide)⟩

/-! ### Helper lemmas about soft deletion -/

theorem length_setInactiveFirst (p : Vehicle → Bool) (l : List Vehicle) :
    (setInactiveFirst p l).length = l.length := by
  induction l with
  | nil => rfl
  | cons v rest ih =>
    unfold setInactiveFirst
    by_cases hp : p v
    · rw [if_pos hp]; rfl
    · rw [if_neg hp]; simpa using ih

theorem flipped_mem_setInactiveFirst {p : Vehicle → Bool} {v0 : Vehicle} :
    ∀ {l : List Vehicle}, l.find? p = some v0 →
      { v0 with is_active := false } ∈ setInactiveFirst p l := by
  intro l
  induction l with
  | nil => intro h; exact absurd h (by simp)
  | cons v rest ih =>
    intro h
    unfold setInactiveFirst
    by_cases hp : p v
    · rw [List.find?_cons_of_pos _ hp] at h
      have : v = v0 := by simpa using h
      subst this
      rw [if_pos hp]
      exact List.mem_cons_self _ _
    · rw [List.find?_cons_of_neg _ hp] at h
      rw [if_neg hp]
      exact List.mem_cons_of_mem _ (ih h)

theorem setInactiveFirst_all_inactive (bid : Nat) (lp : String) :
    ∀ {l : List Vehicle}, uniquePlateKeys l →
      ∀ w ∈ setInactiveFirst
          (fun v => v.building_id == bid && v.license_plate == lp) l,
        w.building_id = bid → w.license_plate = lp → w.is_active = false := by
  intro l
  induction l with
  | nil => intro _ w hw; exact absurd hw (by simp [setInactiveFirst])
  | cons v rest ih =>
    intro hnd w hw hwb hwp
    unfold uniquePlateKeys at hnd ih
    rw [List.pairwise_cons] at hnd
    unfold setInactiveFirst at hw
    by_cases hp : (v.building_id == bid && v.license_plate == lp) = true
    · rw [if_pos hp] at hw
      rcases List.mem_cons.mp hw with hw | hw
      · rw [hw]
      · exfalso
        simp only [Bool.and_eq_true, beq_iff_eq] at hp
        have hkey : plateKey v = plateKey w := by
          unfold plateKey
          rw [hp.1, hp.2, hwb, hwp]
        exact hnd.1 w hw hkey
    · rw [if_neg hp] at hw
      rcases List.mem_cons.mp hw with hw | hw
      · exfalso
        subst hw
        exact hp (by simp [hwb, hwp])
      · exact ih hnd.2 w hw hwb hwp

/-- C8: `delete_vehicle` fails with the 404 not-found error when no record
of this tenant carries the (uppercased) plate; on success it keeps the
table size (soft delete), the deactivated record is still present and
retrievable through an `active_only = false` listing, and — under the
registry invariant of unique `(tenant, plate)` keys — the plate disappears
from default (`active_only = true`) listings and is no longer an
authorization match for `verify_plate`. -/
theorem deactivate_vehicle_contract (lp : String) (b : Building) (db : Db) :
    ((∀ v ∈ db.vehicles,
        ¬(v.building_id = b.id ∧ v.license_plate = pyUpperStr lp)) →
      delete_vehicle lp b db = .error ⟨404, "Vehicle not found"⟩) ∧
    (∀ db', delete_vehicle lp b db = .ok db' →
      db'.vehicles.length = db.vehicles.length ∧
      (∃ v' ∈ db'.vehicles, v'.building_id = b.id ∧
        v'.license_plate = pyUpperStr lp ∧ v'.is_active = false ∧
        v' ∈ list_vehicles b 0 db'.vehicles.length false db') ∧
      (uniquePlateKeys db.vehicles →
        (∀ skip limit, ∀ w ∈ list_vehicles b skip limit true db',
          w.license_plate ≠ pyUpperStr lp) ∧
        (∀ (recognize : String → PlateResult) (img : String) (logId now : Nat),
          upperDespace ((recognize img).text.getD "") = pyUpperStr lp →
          (verify_plate recognize img b db' logId now).1.is_authorized
            = false))) := by
  constructor
  · intro h
    have hfind : db.vehicles.find? (fun v =>
        v.building_id == b.id && v.license_plate == pyUpperStr lp) = none := by
      rw [List.find?_eq_none]
      intro v hv
      simp only [Bool.and_eq_true, beq_iff_eq, not_and]
      exact fun hb hp => h v hv ⟨hb, hp⟩
    simp only [delete_vehicle]
    rw [hfind]
  · intro db' hdel
    simp only [delete_vehicle] at hdel
    cases hfind : db.vehicles.find? (fun v =>
        v.building_id == b.id && v.license_plate == pyUpperStr lp) with
    | none => rw [hfind] at hdel; exact absurd hdel (by simp)
    | some v0 =>
      rw [hfind] at hdel
      have hdb' : db' = { db with vehicles := setInactiveFirst (fun v => v.building_id == b.id && v.license_plate == pyUpperStr lp) db.vehicles } := by
        simpa using hdel.symm
      subst hdb'
      have hp0 := List.find?_some hfind
      simp only [Bool.and_eq_true, beq_iff_eq] at hp0
      have hmemflip := flipped_mem_setInactiveFirst hfind
      refine ⟨length_setInactiveFirst _ _, ?_, ?_⟩
      · refine ⟨{ v0 with is_active := false }, hmemflip, hp0.1, hp0.2,
          rfl, ?_⟩
        unfold list_vehicles
        simp only [if_neg (by simp : ¬(false = true)), List.drop_zero]
        have hmf : { v0 with is_active := false } ∈
            (setInactiveFirst (fun v => v.building_id == b.id &&
              v.license_plate == pyUpperStr lp) db.vehicles).filter
            (fun v => v.building_id == b.id) := by
          rw [List.mem_filter]
          exact ⟨hmemflip, by simp [hp0.1]⟩
        rw [List.take_of_length_le]
        · exact hmf
        · exact le_trans (List.length_filter_le _ _) (le_refl _)
      · intro hnd
        have hinact := setInactiveFirst_all_inactive b.id
          (pyUpperStr lp) hnd
        constructor
        · intro skip limit w hw hwp
          have hq : w ∈ ((setInactiveFirst (fun v => v.building_id == b.id &&
              v.license_plate == pyUpperStr lp) db.vehicles).filter
              (fun v => v.building_id == b.id)).filter
              (fun v => v.is_active == true) := by
            have := List.mem_of_mem_drop (List.mem_of_mem_take hw)
            simpa [list_vehicles] using this
          rw [List.mem_filter, List.mem_filter] at hq
          have hwb : w.building_id = b.id := by
            have := hq.1.2; simpa using this
          have hwa : w.is_active = true := by
            have := hq.2; simpa using this
          have := hinact w hq.1.1 hwb hwp
          rw [this] at hwa
          exact absurd hwa (by simp)
        · intro recognize img logId now hplate
          unfold verify_plate
          by_cases hs : (recognize img).success = false
          · rw [if_pos hs]
          · rw [if_neg hs]
            by_cases ht : pyTruthyStrOpt (recognize img).text = false
            · rw [if_pos ht]
            · rw [if_neg ht]
              simp only
              have hnone : (setInactiveFirst (fun v =>
                  v.building_id == b.id && v.license_plate == pyUpperStr lp)
                    db.vehicles).find? (fun v =>
                  v.building_id == b.id &&
                  v.license_plate == upperDespace ((recognize img).text.getD "")
                  && v.is_active == true) = none := by
                rw [List.find?_eq_none]
                intro w hw
                simp only [Bool.and_eq_true, beq_iff_eq, not_and]
                intro hwb hwa
                exact absurd hwa
                  (by rw [hinact w hw hwb.1 (hwb.2.trans hplate)]; simp)
              rw [hnone]
              rfl

/-- C8 witness: deactivating "abc123" (case-insensitive) for tenant
`bldgB` in `dbAB` keeps the table size; the not-found branch fires for an
unknown plate. -/
theorem deactivate_vehicle_contract_witness :
    (delete_vehicle "NOPE99" bldgB dbAB = .error ⟨404, "Vehicle not found"⟩) ∧
    dbABdel.vehicles.length = dbAB.vehicles.length :=
  ⟨(deactivate_vehicle_contract "NOPE99" bldgB dbAB).1 (by decide),
   ((deactivate_vehicle_contract "abc123" bldgB dbAB).2 dbABdel rfl).1⟩

/-! ### Helper lemmas about the audit query -/

theorem sortByAccessedAtDesc_sorted (l : List AccessLog) :
    (sortByAccessedAtDesc l).Pairwise
      (fun x y => y.accessed_at ≤ x.accessed_at) := by
  unfold sortByAccessedAtDesc
  refine List.Pairwise.imp ?_ (List.sorted_mergeSort ?_ ?_ l)
  · intro a b h
    exact of_decide_eq_true h
  · intro a b c h1 h2
    simp only [decide_eq_true_iff] at h1 h2 ⊢
    omega
  · intro a b
    simp only [Bool.or_eq_true, decide_eq_true_iff]
    omega

theorem mem_sortByAccessedAtDesc {x : AccessLog} {l : List AccessLog} :
    x ∈ sortByAccessedAtDesc l ↔ x ∈ l := by
  unfold sortByAccessedAtDesc
  exact List.mem_mergeSort

theorem pipeline_mem {x : AccessLog} {q : List AccessLog}
    {skip limit : Nat}
    (hx : x ∈ ((sortByAccessedAtDesc q).drop skip).take limit) : x ∈ q :=
  mem_sortByAccessedAtDesc.mp
    (List.mem_of_mem_drop (List.mem_of_mem_take hx))

theorem pipeline_sorted (q : List AccessLog) (skip limit : Nat) :
    (((sortByAccessedAtDesc q).drop skip).take limit).Pairwise
      (fun x y => y.accessed_at ≤ x.accessed_at) :=
  List.Pairwise.sublist
    ((List.take_sublist _ _).trans (List.drop_sublist _ _))
    (sortByAccessedAtDesc_sorted q)

theorem pipeline_full {q : List AccessLog} {limit : Nat}
    (h : q.length ≤ limit) {x : AccessLog} :
    x ∈ ((sortByAccessedAtDesc q).drop 0).take limit ↔ x ∈ q := by
  rw [List.drop_zero, List.take_of_length_le, mem_sortByAccessedAtDesc]
  unfold sortByAccessedAtDesc
  rw [List.length_mergeSort]
  exact h

/-- C9: the audit query returns only entries of the requesting tenant, in
newest-first order (non-increasing timestamps), the optional filter forces
the `is_authorized` flag of everything returned, and — over the full window
(`skip = 0`, `limit` at least the table size) — it returns exactly the
tenant's entries selected by the filter. -/
theorem audit_query_contract (b : Building) (skip limit : Nat)
    (filt : Option Bool) (db : Db) :
    (∀ l ∈ list_access_logs b skip limit filt db,
      l.building_id = b.id ∧ ∀ a, filt = some a → l.is_authorized = a) ∧
    (list_access_logs b skip limit filt db).Pairwise
      (fun x y => y.accessed_at ≤ x.accessed_at) ∧
    (skip = 0 → db.access_logs.length ≤ limit →
      ∀ l, l ∈ list_access_logs b skip limit filt db ↔
        l ∈ db.access_logs ∧ l.building_id = b.id ∧
          ∀ a, filt = some a → l.is_authorized = a) := by
  cases filt with
  | none =>
    refine ⟨?_, pipeline_sorted _ skip limit, ?_⟩
    · intro l hl
      have hq := pipeline_mem hl
      rw [List.mem_filter] at hq
      exact ⟨by simpa using hq.2, fun a ha => absurd ha (by simp)⟩
    · intro hskip hlim l
      subst hskip
      have hlen : (db.access_logs.filter
          (fun l => l.building_id == b.id)).length ≤ limit :=
        le_trans (List.length_filter_le _ _) hlim
      rw [show list_access_logs b 0 limit none db =
          ((sortByAccessedAtDesc (db.access_logs.filter
            (fun l => l.building_id == b.id))).drop 0).take limit from rfl,
        pipeline_full hlen, List.mem_filter]
      constructor
      · rintro ⟨h1, h2⟩
        exact ⟨h1, by simpa using h2, fun a ha => absurd ha (by simp)⟩
      · rintro ⟨h1, h2, -⟩
        exact ⟨h1, by simpa using h2⟩
  | some a =>
    refine ⟨?_, pipeline_sorted _ skip limit, ?_⟩
    · intro l hl
      have hq := pipeline_mem hl
      rw [List.mem_filter, List.mem_filter] at hq
      refine ⟨by simpa using hq.1.2, fun c hc => ?_⟩
      have hac : a = c := by simpa using hc
      rw [← hac]
      simpa using hq.2
    · intro hskip hlim l
      subst hskip
      have hlen : ((db.access_logs.filter
          (fun l => l.building_id == b.id)).filter
            (fun l => l.is_authorized == a)).length ≤ limit :=
        le_trans (List.length_filter_le _ _)
          (le_trans (List.length_filter_le _ _) hlim)
      rw [show list_access_logs b 0 limit (some a) db =
          ((sortByAccessedAtDesc ((db.access_logs.filter
            (fun l => l.building_id == b.id)).filter
              (fun l => l.is_authorized == a))).drop 0).take limit from rfl,
        pipeline_full hlen, List.mem_filter, List.mem_filter]
      constructor
      · rintro ⟨⟨h1, h2⟩, h3⟩
        refine ⟨h1, by simpa using h2, fun c hc => ?_⟩
        have hac : a = c := by simpa using hc
        rw [← hac]
        simpa using h3
      · rintro ⟨h1, h2, h3⟩
        exact ⟨⟨h1, by simpa using h2⟩, by simpa using h3 a rfl⟩

/-- C9 witness: in a concrete two-entry store under the authorized-only
filter and a full window, tenant `bldgB`'s authorized entry is returned,
and every returned entry is `bldgB`'s with `is_authorized = true`. -/
theorem audit_query_contract_witness :
    (⟨5, 2, "ABC123", true, some 95, 10⟩ : AccessLog) ∈
      list_access_logs bldgB 0 100 (some true)
        ⟨[bldgA, bldgB], [], [⟨4, 1, "XYZ111", false, none, 3⟩,
          ⟨5, 2, "ABC123", true, some 95, 10⟩]⟩ :=
  ((audit_query_contract bldgB 0 100 (some true)
    ⟨[bldgA, bldgB], [], [⟨4, 1, "XYZ111", false, none, 3⟩,
      ⟨5, 2, "ABC123", true, some 95, 10⟩]⟩).2.2 rfl (by decide)
    ⟨5, 2, "ABC123", true, some 95, 10⟩).mpr
    ⟨by decide, by decide, by intro a ha; cases ha; rfl⟩

end ParkingALPR
